import Mathlib

/-!
Verification development for the VocoEng asynchronous message pipeline.

The definitions below are a shallow embedding of the two pipeline services:

* `VocoEng.Listener` embeds `vocoeng-webhook-listener/app.py` (the Ingestion
  Gateway): the `/webhook/whatsapp` and `/webhook/api` Flask handlers, the
  Pub/Sub publish helper and the Flask error handlers.  External effects
  (Pub/Sub publish, Secret Manager access) are passed in as explicit oracles
  of type `Except String _`, and the list of published messages is returned
  alongside the HTTP response so that publish counts can be stated.
  A Flask `abort(code)` raises a werkzeug `HTTPException`, which is a
  subclass of `Exception`; both handlers wrap their whole body in
  `try/except Exception`, so an abort raised inside the body is caught and
  replaced by `abort(500)`.  The embedding models this faithfully with
  `PyExc` values flowing into `runHandler`.

* `VocoEng.Worker` embeds `vocoeng-worker/worker.py`: the Pub/Sub `callback`
  (ack/nack decision), `process_message`, `process_with_openai` /
  `process_with_anthropic` context assembly, `get_conversation_history`,
  `save_message_to_firestore` and the Firestore state it mutates.  Firestore
  is modelled as an explicit state (`FsState`): per-user message
  subcollections kept in insertion (chronological) order, per-user summary
  documents, and a counter supplying the fresh document ids that
  `collection.add` generates.  The OpenAI / Anthropic network calls are
  oracles; the fixed request parameters of the source (`model`,
  `max_tokens`, `temperature`) are recorded in the constructed `AIResponse`.

JSON payloads are modelled by records of `Option String` fields covering
exactly the keys the handlers read; `dict.get(k, default)` becomes
`Option.getD`.  Timestamps (`datetime.utcnow()`) are abstract instants
passed in as `Nat` parameters.
-/

namespace VocoEng

/-- Python `xs[-n:]`: the last `n` elements of a list. -/
def lastN (n : Nat) (l : List α) : List α := l.drop (l.length - n)

theorem lastN_nil (n : Nat) : lastN n ([] : List α) = [] := by
  simp [lastN]

theorem lastN_lastN (m n : Nat) (h : m ≤ n) (l : List α) :
    lastN m (lastN n l) = lastN m l := by
  unfold lastN
  rw [List.drop_drop, List.length_drop]
  congr 1
  omega

/-- Association-list lookup, modelling keyed document access. -/
def lookupA {β : Type} : List (String × β) → String → Option β
  | [], _ => none
  | (k', v) :: rest, k => if k' = k then some v else lookupA rest k

/-- Association-list update or insert, modelling a keyed document write. -/
def setA {β : Type} : List (String × β) → String → β → List (String × β)
  | [], k, v => [(k, v)]
  | (k', v') :: rest, k, v =>
      if k' = k then (k, v) :: rest else (k', v') :: setA rest k v

theorem lookupA_setA_self {β : Type} (l : List (String × β)) (k : String) (v : β) :
    lookupA (setA l k v) k = some v := by
  induction l with
  | nil => simp [setA, lookupA]
  | cons hd tl ih =>
    obtain ⟨k', v'⟩ := hd
    by_cases h : k' = k
    · simp [setA, lookupA, h]
    · simp [setA, lookupA, h, ih]

theorem str_append_assoc (a b c : String) : (a ++ b) ++ c = a ++ (b ++ c) := by
  rcases a with ⟨xs⟩
  rcases b with ⟨ys⟩
  rcases c with ⟨zs⟩
  show String.mk ((xs ++ ys) ++ zs) = String.mk (xs ++ (ys ++ zs))
  rw [List.append_assoc]

namespace Listener

/-- Fields of a WhatsApp webhook JSON body that the handler reads:
`data.get('from', '')` and `data.get('text', {}).get('body', '')`.
A `none` field models a missing key. -/
structure WhatsAppData where
  sender : Option String
  textBody : Option String
deriving Repr, DecidableEq

/-- Fields of a generic API webhook JSON body that the handler reads:
`user_id`, `message` and `source` (defaulting to "api"). -/
structure ApiData where
  user_id : Option String
  message : Option String
  source : Option String
deriving Repr, DecidableEq

/-- The `metadata` dict attached to a `WebhookMessage` by each endpoint. -/
inductive Meta where
  | whatsapp (whatsapp_data : WhatsAppData) (received_at : Nat)
  | api (api_data : ApiData) (received_at : Nat) (client_ip : String)
deriving Repr, DecidableEq

/-- The pydantic `WebhookMessage` model published to Pub/Sub. -/
structure WebhookMessage where
  source : String
  user_id : String
  message : String
  timestamp : Nat
  metadata : Meta
deriving Repr, DecidableEq

/-- An HTTP response: status code plus the JSON envelope fields used by the
service (`status`, `message`, optional `message_id`). -/
structure HttpResponse where
  status_code : Nat
  status : String
  message : String
  message_id : Option String
deriving Repr, DecidableEq

/-- A Python exception escaping a handler body: either a werkzeug
`HTTPException` raised by `abort(code, description)` or any other exception.
`HTTPException` subclasses `Exception`, so `except Exception` catches both. -/
inductive PyExc where
  | http (code : Nat) (description : String)
  | other (msg : String)
deriving Repr, DecidableEq

/-- The 200 body `WebhookResponse(status="success", ...)` both endpoints
return after a successful publish. -/
def successResponse (message_id : String) : HttpResponse :=
  { status_code := 200, status := "success",
    message := "Message received and queued for processing",
    message_id := some message_id }

/-- The rendered 500 envelope from the `internal_error` Flask error handler. -/
def internalErrorResponse : HttpResponse :=
  { status_code := 500, status := "error",
    message := "Internal server error", message_id := none }

/-- The Flask error handlers `bad_request`, `unauthorized`, `internal_error`:
each renders `{status: "error", message}` with its status code; the 500
handler discards the description. -/
def errorEnvelope (code : Nat) (description : String) : HttpResponse :=
  if code = 500 then internalErrorResponse
  else { status_code := code, status := "error",
         message := description, message_id := none }

/-- The `try/except Exception` wrapper shared by both webhook handlers,
composed with Flask dispatch.  Any exception escaping the body — including
an `HTTPException` raised by `abort(400)`/`abort(401)` inside the `try` —
is caught by `except Exception` and replaced with
`abort(500, "Internal server error")`, which Flask then renders through the
500 error handler.  The second component is the list of Pub/Sub publishes
performed by the body. -/
def runHandler (out : Except PyExc HttpResponse × List WebhookMessage) :
    HttpResponse × List WebhookMessage :=
  match out with
  | (.ok resp, pubs) => (resp, pubs)
  | (.error _, pubs) => (errorEnvelope 500 "Internal server error", pubs)

/-- The `WebhookMessage` constructed by `whatsapp_webhook` from a payload. -/
def whatsappMessage (d : WhatsAppData) (now : Nat) : WebhookMessage :=
  { source := "whatsapp", user_id := d.sender.getD "",
    message := d.textBody.getD "", timestamp := now,
    metadata := .whatsapp d now }

/-- Body of the `try` block of `whatsapp_webhook`.  `pub` is the
`publish_to_pubsub` effect: it returns the Pub/Sub message id or fails (a
failing publish logs and re-raises, surfacing as a non-HTTP exception). -/
def whatsappTry (data : Option WhatsAppData) (now : Nat)
    (pub : WebhookMessage → Except String String) :
    Except PyExc HttpResponse × List WebhookMessage :=
  match data with
  | none => (.error (.http 400 "No JSON data provided"), [])
  | some d =>
    let user_id := d.sender.getD ""
    let message_text := d.textBody.getD ""
    if user_id = "" ∨ message_text = "" then
      (.error (.http 400 "Missing required fields: from, text.body"), [])
    else
      let webhook_msg := whatsappMessage d now
      match pub webhook_msg with
      | .error e => (.error (.other e), [])
      | .ok message_id => (.ok (successResponse message_id), [webhook_msg])

/-- The `/webhook/whatsapp` handler.  The signature-validation block of the
source is commented out, so the `X-Hub-Signature-256` header is accepted but
never consulted. -/
def whatsapp_webhook (_x_hub_signature : Option String)
    (data : Option WhatsAppData) (now : Nat)
    (pub : WebhookMessage → Except String String) :
    HttpResponse × List WebhookMessage :=
  runHandler (whatsappTry data now pub)

/-- The `WebhookMessage` constructed by `api_webhook` from a payload. -/
def apiMessage (d : ApiData) (now : Nat) (client_ip : String) : WebhookMessage :=
  { source := d.source.getD "api", user_id := d.user_id.getD "",
    message := d.message.getD "", timestamp := now,
    metadata := .api d now client_ip }

/-- Body of the `try` block of `api_webhook`.  `api_key` is the `X-API-Key`
header; `secretRes` is the outcome of `get_secret('api-webhook-key')`
(which re-raises on failure). -/
def apiTry (api_key : Option String) (secretRes : Except String String)
    (data : Option ApiData) (now : Nat) (client_ip : String)
    (pub : WebhookMessage → Except String String) :
    Except PyExc HttpResponse × List WebhookMessage :=
  if api_key.getD "" = "" then
    (.error (.http 401 "Missing API key"), [])
  else
    match secretRes with
    | .error e => (.error (.other e), [])
    | .ok valid_api_key =>
      if api_key.getD "" ≠ valid_api_key then
        (.error (.http 401 "Invalid API key"), [])
      else
        match data with
        | none => (.error (.http 400 "No JSON data provided"), [])
        | some d =>
          let user_id := d.user_id.getD ""
          let message := d.message.getD ""
          if user_id = "" ∨ message = "" then
            (.error (.http 400 "Missing required fields: user_id, message"), [])
          else
            let webhook_msg := apiMessage d now client_ip
            match pub webhook_msg with
            | .error e => (.error (.other e), [])
            | .ok message_id => (.ok (successResponse message_id), [webhook_msg])

/-- The `/webhook/api` handler. -/
def api_webhook (api_key : Option String) (secretRes : Except String String)
    (data : Option ApiData) (now : Nat) (client_ip : String)
    (pub : WebhookMessage → Except String String) :
    HttpResponse × List WebhookMessage :=
  runHandler (apiTry api_key secretRes data now client_ip pub)

/-- The resource name built by `get_secret`. -/
def secretVersionName (projectId name version : String) : String :=
  "projects/" ++ projectId ++ "/secrets/" ++ name ++ "/versions/" ++ version

/-- The function `get_secret` as written in both services: access the secret version and
on failure log and re-raise.  `access` is the Secret Manager client. -/
def get_secret (access : String → Except String String)
    (projectId name : String) : Except String String :=
  match access (secretVersionName projectId name "latest") with
  | .ok payload => .ok payload
  | .error e => .error e

/-- A secret name uppercased character by character, as an environment
variable name. -/
def uppercaseName (s : String) : String :=
  String.mk (s.data.map Char.toUpper)

/-- The resolver behavior described by the spec, for comparison with
`get_secret`: on failure, fall back to the process environment variable of
the same name, uppercased, when available. -/
def get_secret_with_env_fallback (access : String → Except String String)
    (env : String → Option String) (projectId name : String) :
    Except String String :=
  match access (secretVersionName projectId name "latest") with
  | .ok payload => .ok payload
  | .error e =>
    match env (uppercaseName name) with
    | some v => .ok v
    | none => .error e

end Listener

namespace Worker

/-- The message dict decoded from a Pub/Sub delivery payload, restricted to
the keys the worker reads; `none` models a missing key. -/
structure MessageData where
  source : Option String
  user_id : Option String
  message : Option String
  timestamp : Option Nat
  metadata : List (String × String)
deriving Repr, DecidableEq

/-- The pydantic `ProcessingMessage` model: all four core fields required. -/
structure ProcessingMessage where
  source : String
  user_id : String
  message : String
  timestamp : Nat
  metadata : List (String × String)
deriving Repr, DecidableEq

/-- Pydantic validation performed by `ProcessingMessage(**message_data)`:
fails when a required field is absent. -/
def validateProcessingMessage (d : MessageData) : Except String ProcessingMessage :=
  match d.source, d.user_id, d.message, d.timestamp with
  | some s, some u, some m, some t =>
      .ok { source := s, user_id := u, message := m, timestamp := t,
            metadata := d.metadata }
  | _, _, _, _ => .error "validation error for ProcessingMessage"

/-- The pydantic `AIResponse` model. -/
structure AIResponse where
  response : String
  model : String
  usage : List (String × Nat)
  metadata : List (String × String)
deriving Repr, DecidableEq

/-- A document of the per-user `messages` subcollection in Firestore.  The
user turn written by `save_message_to_firestore` has no `model`, `usage` or
`processing_time_ms` keys (`none` here); the AI turn has all of them. -/
structure TurnDoc where
  id : Nat
  source : String
  user_id : String
  message : String
  timestamp : Nat
  model : Option String
  usage : Option (List (String × Nat))
  processing_time_ms : Option Nat
  metadata : List (String × String)
deriving Repr, DecidableEq

/-- The per-user conversation summary document, written with
`set(..., merge=True)` and `firestore.Increment(1)`. -/
structure Summary where
  last_activity : Nat
  message_count : Nat
  last_message : String
  last_response : String
deriving Repr, DecidableEq

/-- The Firestore state the worker mutates: per-user message subcollections
kept in insertion (chronological) order, per-user summaries, and the counter
supplying the fresh document ids generated by `collection.add`. -/
structure FsState where
  conversations : List (String × List TurnDoc)
  summaries : List (String × Summary)
  nextId : Nat
deriving Repr, DecidableEq

/-- The message subcollection of one user. -/
def turnsOf (s : FsState) (uid : String) : List TurnDoc :=
  (lookupA s.conversations uid).getD []

/-- The `message_count` of one user (0 when no summary document exists,
matching `Increment` semantics on a missing field). -/
def countOf (s : FsState) (uid : String) : Nat :=
  match lookupA s.summaries uid with
  | some summary => summary.message_count
  | none => 0

/-- Model of `messages_ref.add(doc)`: append a document with a fresh auto id to one
user's subcollection and return the new document reference id. -/
def addDoc (s : FsState) (uid : String) (mk : Nat → TurnDoc) : FsState × Nat :=
  ({ conversations := setA s.conversations uid (turnsOf s uid ++ [mk s.nextId]),
     summaries := s.summaries, nextId := s.nextId + 1 }, s.nextId)

/-- Model of `conversation_ref.set({..., message_count: Increment(1), ...}, merge=True)`:
merge-write the summary, atomically incrementing `message_count` by 1. -/
def mergeSummary (s : FsState) (uid : String) (now : Nat)
    (lastMsg lastResp : String) : FsState :=
  let newSummary : Summary :=
    match lookupA s.summaries uid with
    | some old =>
        { last_activity := now, message_count := old.message_count + 1,
          last_message := lastMsg, last_response := lastResp }
    | none =>
        { last_activity := now, message_count := 1,
          last_message := lastMsg, last_response := lastResp }
  { s with summaries := setA s.summaries uid newSummary }

/-- The user-turn document written by `save_message_to_firestore`. -/
def userTurnDoc (md : MessageData) (now i : Nat) : TurnDoc :=
  { id := i, source := md.source.getD "", user_id := md.user_id.getD "",
    message := md.message.getD "", timestamp := now,
    model := none, usage := none, processing_time_ms := none,
    metadata := md.metadata }

/-- The AI-turn document written by `save_message_to_firestore`. -/
def aiTurnDoc (uid : String) (ai : AIResponse) (pt now i : Nat) : TurnDoc :=
  { id := i, source := "ai", user_id := uid, message := ai.response,
    timestamp := now, model := some ai.model, usage := some ai.usage,
    processing_time_ms := some pt, metadata := ai.metadata }

/-- The function `save_message_to_firestore`: append the original message then the AI
response to the user's subcollection, merge-update the summary, and return
the two fresh document ids `{message_id, response_id}`. -/
def save_message_to_firestore (s : FsState) (md : MessageData)
    (ai : AIResponse) (pt now : Nat) : FsState × Nat × Nat :=
  let user_id := md.user_id.getD ""
  let (s1, message_id) := addDoc s user_id (fun i => userTurnDoc md now i)
  let (s2, response_id) := addDoc s1 user_id (fun i => aiTurnDoc user_id ai pt now i)
  let s3 := mergeSummary s2 user_id now (md.message.getD "") ai.response
  (s3, message_id, response_id)

/-- The function `get_conversation_history`: the Firestore query result (newest-first,
already limited) is reversed into chronological order; any failure is caught
and an empty history returned.  `fetchRes` is the outcome of the
`order_by(timestamp, DESCENDING).limit(limit).stream()` read. -/
def get_conversation_history (fetchRes : Except String (List TurnDoc)) :
    List TurnDoc :=
  match fetchRes with
  | .ok docs => docs.reverse
  | .error _ => []

/-- The Firestore query `order_by('timestamp', DESCENDING).limit(limit)` on a
per-user subcollection maintained in chronological order: the newest `limit`
documents, newest first. -/
def firestoreQueryDescLimit (turns : List TurnDoc) (limit : Nat) : List TurnDoc :=
  (lastN limit turns).reverse

/-- The history `get_conversation_history(user_id)` returns when the store
read succeeds for a user whose stored turns (chronological) are `turns`;
the default query limit is 20. -/
def historyFromStore (turns : List TurnDoc) : List TurnDoc :=
  get_conversation_history (.ok (firestoreQueryDescLimit turns 20))

/-- OpenAI role mapping applied to one stored turn:
`"user" if msg.get('source') != 'ai' else "assistant"`. -/
def openaiRoleMsg (t : TurnDoc) : String × String :=
  ((if t.source ≠ "ai" then "user" else "assistant"), t.message)

/-- The `messages` list assembled by `process_with_openai`: the last 10
history turns role-mapped, then the new user message. -/
def openai_messages (conversation_history : List TurnDoc) (message : String) :
    List (String × String) :=
  (lastN 10 conversation_history).map
    (fun m => ((if m.source ≠ "ai" then "user" else "assistant"), m.message))
    ++ [("user", message)]

/-- The raw reply of the OpenAI chat-completions call. -/
structure OpenAIReply where
  content : String
  prompt_tokens : Nat
  completion_tokens : Nat
  total_tokens : Nat
deriving Repr, DecidableEq

/-- The `AIResponse` built by `process_with_openai` from a raw reply: model
`gpt-4`, normalized usage fields, provider metadata. -/
def openaiAIResponse (r : OpenAIReply) : AIResponse :=
  { response := r.content, model := "gpt-4",
    usage := [("prompt_tokens", r.prompt_tokens),
              ("completion_tokens", r.completion_tokens),
              ("total_tokens", r.total_tokens)],
    metadata := [("provider", "openai")] }

/-- The function `process_with_openai`: assemble history context, call the OpenAI API
(`aiCall`, the network; the source fixes model gpt-4, max_tokens 1000,
temperature 0.7) and normalize the reply; any failure propagates. -/
def process_with_openai (fetchRes : Except String (List TurnDoc))
    (aiCall : List (String × String) → Except String OpenAIReply)
    (message : String) : Except String AIResponse :=
  let conversation_history := get_conversation_history fetchRes
  let messages := openai_messages conversation_history message
  (aiCall messages).map openaiAIResponse

/-- One line of the Anthropic conversation text:
`Human: ...` for non-AI turns, `Assistant: ...` for AI turns. -/
def anthropicTurnLine (t : TurnDoc) : String :=
  if t.source ≠ "ai" then "Human: " ++ t.message ++ "\n"
  else "Assistant: " ++ t.message ++ "\n"

/-- The accumulation loop of `process_with_anthropic` building
`conversation_text` over the selected history turns. -/
def buildConversationText : List TurnDoc → String → String
  | [], acc => acc
  | t :: rest, acc =>
      buildConversationText rest
        (acc ++ (if t.source ≠ "ai" then "Human: " ++ t.message ++ "\n"
                 else "Assistant: " ++ t.message ++ "\n"))

/-- Spec-shaped rendering of a list of turns as Anthropic conversation
lines, for comparison with `buildConversationText`. -/
def renderedTurns : List TurnDoc → String
  | [] => ""
  | t :: rest => anthropicTurnLine t ++ renderedTurns rest

/-- The full prompt text assembled by `process_with_anthropic`: the last 5
history turns rendered, then `Human: <message>\nAssistant:`. -/
def anthropic_prompt_text (conversation_history : List TurnDoc)
    (message : String) : String :=
  buildConversationText (lastN 5 conversation_history) ""
    ++ ("Human: " ++ message ++ "\nAssistant:")

/-- The raw reply of the Anthropic messages call. -/
structure AnthropicReply where
  text : String
  input_tokens : Nat
  output_tokens : Nat
deriving Repr, DecidableEq

/-- The function `process_with_anthropic`: assemble the conversation text, call the
Anthropic API (`aiCall`; the source fixes model claude-3-sonnet-20240229 and
max_tokens 1000) and normalize the reply; any failure propagates. -/
def process_with_anthropic (fetchRes : Except String (List TurnDoc))
    (aiCall : String → Except String AnthropicReply)
    (message : String) : Except String AIResponse :=
  let conversation_history := get_conversation_history fetchRes
  let conversation_text := anthropic_prompt_text conversation_history message
  (aiCall conversation_text).map (fun r =>
    { response := r.text, model := "claude-3-sonnet-20240229",
      usage := [("input_tokens", r.input_tokens),
                ("output_tokens", r.output_tokens)],
      metadata := [("provider", "anthropic")] })

/-- The metadata dict attached to a `ProcessingResult`:
`{'firestore_ids': {...}, 'source': ...}`. -/
structure ResultMetadata where
  firestore_message_id : Nat
  firestore_response_id : Nat
  source : String
deriving Repr, DecidableEq

/-- The pydantic `ProcessingResult` model published to the response topic.
Its `message_id` is the Firestore document id returned by
`save_message_to_firestore` for the user turn. -/
structure ProcessingResult where
  message_id : Nat
  user_id : String
  original_message : String
  ai_response : AIResponse
  processing_time_ms : Nat
  timestamp : Nat
  metadata : ResultMetadata
deriving Repr, DecidableEq

/-- The worker-visible world: the Firestore state plus the list of
`ProcessingResult`s published to the response topic
(`publish_response_to_pubsub` appends to it). -/
structure WorkerState where
  fs : FsState
  responses : List ProcessingResult
deriving Repr, DecidableEq

/-- The function `process_message`: validate, run the AI call (the default provider is
OpenAI), persist both turns, build the `ProcessingResult` and publish it.
Validation and AI failures propagate as errors; the Firestore writes and the
response publish are modelled on their success path (their I/O failures are
covered by the abstract processing outcome consumed by `callback`). -/
def process_message
    (aiCall : List (String × String) → Except String OpenAIReply)
    (fetchRes : Except String (List TurnDoc)) (w : WorkerState)
    (message_data : MessageData) (now pt : Nat) :
    Except String (WorkerState × ProcessingResult) :=
  match validateProcessingMessage message_data with
  | .error e => .error e
  | .ok processing_msg =>
    match process_with_openai fetchRes aiCall processing_msg.message with
    | .error e => .error e
    | .ok ai_response =>
      let (fs1, ids) := save_message_to_firestore w.fs message_data ai_response pt now
      let result : ProcessingResult :=
        { message_id := ids.1, user_id := processing_msg.user_id,
          original_message := processing_msg.message,
          ai_response := ai_response, processing_time_ms := pt,
          timestamp := now,
          metadata := { firestore_message_id := ids.1,
                        firestore_response_id := ids.2,
                        source := processing_msg.source } }
      .ok ({ fs := fs1, responses := w.responses ++ [result] }, result)

/-- The ack/nack decision of a consumer callback. -/
inductive AckAction where
  | ack
  | nack
deriving Repr, DecidableEq

/-- The Pub/Sub `callback`: decode the delivery payload (`decoded` is the
outcome of `json.loads` plus reading the dict), run the whole processing
attempt (`proc`), and ack only when everything succeeded; any exception —
including a decode failure — reaches the `except` clause, which nacks. -/
def callback {α : Type} (decoded : Except String MessageData)
    (proc : MessageData → Except String α) : AckAction :=
  match decoded with
  | .error _ => .nack
  | .ok message_data =>
    match proc message_data with
    | .ok _ => .ack
    | .error _ => .nack

end Worker

namespace Worker

theorem turnsOf_addDoc (s : FsState) (uid : String) (mk : Nat → TurnDoc) :
    turnsOf (addDoc s uid mk).1 uid = turnsOf s uid ++ [mk s.nextId] := by
  simp [addDoc, turnsOf, lookupA_setA_self]

theorem countOf_addDoc (s : FsState) (uid v : String) (mk : Nat → TurnDoc) :
    countOf (addDoc s uid mk).1 v = countOf s v := rfl

theorem nextId_addDoc (s : FsState) (uid : String) (mk : Nat → TurnDoc) :
    (addDoc s uid mk).1.nextId = s.nextId + 1 := rfl

theorem turnsOf_mergeSummary (s : FsState) (uid v : String) (now : Nat)
    (lastMsg lastResp : String) :
    turnsOf (mergeSummary s uid now lastMsg lastResp) v = turnsOf s v := rfl

theorem countOf_mergeSummary (s : FsState) (uid : String) (now : Nat)
    (lastMsg lastResp : String) :
    countOf (mergeSummary s uid now lastMsg lastResp) uid = countOf s uid + 1 := by
  unfold mergeSummary countOf
  cases h : lookupA s.summaries uid <;> simp [h, lookupA_setA_self]

theorem turnsOf_save (s : FsState) (md : MessageData) (ai : AIResponse)
    (pt now : Nat) :
    turnsOf (save_message_to_firestore s md ai pt now).1 (md.user_id.getD "") =
      turnsOf s (md.user_id.getD "") ++
        [userTurnDoc md now s.nextId,
         aiTurnDoc (md.user_id.getD "") ai pt now (s.nextId + 1)] := by
  unfold save_message_to_firestore
  simp only [turnsOf_mergeSummary, turnsOf_addDoc, nextId_addDoc, List.append_assoc]
  rfl

theorem countOf_save (s : FsState) (md : MessageData) (ai : AIResponse)
    (pt now : Nat) :
    countOf (save_message_to_firestore s md ai pt now).1 (md.user_id.getD "") =
      countOf s (md.user_id.getD "") + 1 := by
  unfold save_message_to_firestore
  rw [countOf_mergeSummary, countOf_addDoc, countOf_addDoc]

theorem ids_save (s : FsState) (md : MessageData) (ai : AIResponse)
    (pt now : Nat) :
    (save_message_to_firestore s md ai pt now).2 = (s.nextId, s.nextId + 1) := rfl

theorem nextId_save (s : FsState) (md : MessageData) (ai : AIResponse)
    (pt now : Nat) :
    (save_message_to_firestore s md ai pt now).1.nextId = s.nextId + 2 := rfl

theorem buildConversationText_eq (l : List TurnDoc) (acc : String) :
    buildConversationText l acc = acc ++ renderedTurns l := by
  induction l generalizing acc with
  | nil =>
    show acc = acc ++ ""
    rcases acc with ⟨xs⟩
    show String.mk xs = String.mk (xs ++ [])
    rw [List.append_nil]
  | cons t rest ih =>
    show buildConversationText rest (acc ++ _) = acc ++ (anthropicTurnLine t ++ renderedTurns rest)
    rw [ih, ← str_append_assoc]
    rfl

theorem historyFromStore_eq (turns : List TurnDoc) :
    historyFromStore turns = lastN 20 turns := by
  simp [historyFromStore, get_conversation_history, firestoreQueryDescLimit]

theorem validate_fields {md : MessageData} {pm : ProcessingMessage}
    (hv : validateProcessingMessage md = .ok pm) :
    md.source = some pm.source ∧ md.user_id = some pm.user_id ∧
      md.message = some pm.message ∧ md.timestamp = some pm.timestamp := by
  rcases hs : md.source with _ | s <;> rcases hu : md.user_id with _ | u <;>
    rcases hm : md.message with _ | m <;> rcases ht : md.timestamp with _ | t <;>
    · unfold validateProcessingMessage at hv
      rw [hs, hu, hm, ht] at hv
      simp at hv
      try subst hv
      try exact ⟨rfl, rfl, rfl, rfl⟩

/-- Successful single processing attempt, fully characterized: the result and
new worker state in terms of the initial state. -/
theorem process_message_ok
    (aiCall : List (String × String) → Except String OpenAIReply)
    (reply : OpenAIReply) (md : MessageData) (pm : ProcessingMessage)
    (fetchRes : Except String (List TurnDoc)) (w : WorkerState) (now pt : Nat)
    (hai : ∀ ms, aiCall ms = .ok reply)
    (hv : validateProcessingMessage md = .ok pm) :
    process_message aiCall fetchRes w md now pt = .ok
      ({ fs := (save_message_to_firestore w.fs md (openaiAIResponse reply) pt now).1,
         responses := w.responses ++
           [{ message_id := w.fs.nextId, user_id := pm.user_id,
              original_message := pm.message,
              ai_response := openaiAIResponse reply, processing_time_ms := pt,
              timestamp := now,
              metadata := { firestore_message_id := w.fs.nextId,
                            firestore_response_id := w.fs.nextId + 1,
                            source := pm.source } }] },
       { message_id := w.fs.nextId, user_id := pm.user_id,
         original_message := pm.message,
         ai_response := openaiAIResponse reply, processing_time_ms := pt,
         timestamp := now,
         metadata := { firestore_message_id := w.fs.nextId,
                       firestore_response_id := w.fs.nextId + 1,
                       source := pm.source } }) := by
  unfold process_message process_with_openai
  rw [hv]
  simp only [hai]
  rfl

end Worker

namespace Listener

/-- A well-formed WhatsApp payload, for concrete evaluation. -/
def wdEx : WhatsAppData := { sender := some "u1", textBody := some "hello" }

/-- A WhatsApp payload with a missing `from` field. -/
def wdBad : WhatsAppData := { sender := none, textBody := some "hello" }

/-- A well-formed generic API payload, for concrete evaluation. -/
def adEx : ApiData := { user_id := some "u1", message := some "hello", source := some "api" }

/-- A generic API payload with a missing `message` field. -/
def adBad : ApiData := { user_id := some "u1", message := none, source := none }

/-- A publish oracle that always succeeds with message id `mid-1`. -/
def pubOk : WebhookMessage → Except String String := fun _ => .ok "mid-1"

/-- C1: for a request with an absent JSON body, or a missing or empty user
id or message text, both endpoints perform zero Queue publishes — but the
response is the 500 envelope `Internal server error`, not a 400-equivalent:
the `abort(400)` raised inside the handler body is an `HTTPException`
(a subclass of `Exception`), so the handler's own `except Exception` block
catches it and replaces it with `abort(500)`.  The claimed 400 response is
unreachable on these endpoints. -/
theorem C1_invalid_payload_500_and_no_publish :
    ∀ (sig : Option String) (now : Nat)
      (pub : WebhookMessage → Except String String)
      (d : WhatsAppData) (key : String) (a : ApiData) (ip : String),
    (whatsapp_webhook sig none now pub = (internalErrorResponse, [])) ∧
    (d.sender.getD "" = "" ∨ d.textBody.getD "" = "" →
       whatsapp_webhook sig (some d) now pub = (internalErrorResponse, [])) ∧
    (key ≠ "" →
       api_webhook (some key) (.ok key) none now ip pub = (internalErrorResponse, [])) ∧
    (key ≠ "" → (a.user_id.getD "" = "" ∨ a.message.getD "" = "") →
       api_webhook (some key) (.ok key) (some a) now ip pub = (internalErrorResponse, [])) := by
  intro sig now pub d key a ip
  refine ⟨rfl, fun h => ?_, fun hk => ?_, fun hk h => ?_⟩
  · simp only [whatsapp_webhook, whatsappTry]
    rw [if_pos h]
    rfl
  · simp only [api_webhook, apiTry, Option.getD_some]
    rw [if_neg hk, if_neg (fun hne : key ≠ key => hne rfl)]
    rfl
  · simp only [api_webhook, apiTry, Option.getD_some]
    rw [if_neg hk, if_neg (fun hne : key ≠ key => hne rfl), if_pos h]
    rfl

/-- C1 witness: concrete invalid requests evaluated through the theorem. -/
theorem C1_witness :
    ((wdBad.sender.getD "" = "" ∨ wdBad.textBody.getD "" = "") ∧
      ("k1" : String) ≠ "" ∧
      (adBad.user_id.getD "" = "" ∨ adBad.message.getD "" = "")) ∧
    whatsapp_webhook none none 0 pubOk = (internalErrorResponse, []) ∧
    whatsapp_webhook none (some wdBad) 0 pubOk = (internalErrorResponse, []) ∧
    api_webhook (some "k1") (.ok "k1") none 0 "ip" pubOk = (internalErrorResponse, []) ∧
    api_webhook (some "k1") (.ok "k1") (some adBad) 0 "ip" pubOk = (internalErrorResponse, []) := by
  obtain ⟨h1, h2, h3, h4⟩ :=
    C1_invalid_payload_500_and_no_publish none 0 pubOk wdBad "k1" adBad "ip"
  exact ⟨⟨Or.inl rfl, by decide, Or.inr rfl⟩, h1, h2 (Or.inl rfl),
    h3 (by decide), h4 (by decide) (Or.inr rfl)⟩

/-- C2: the claimed 401-on-bad-credential behavior does not hold on either
channel.  On the WhatsApp endpoint the signature-validation block is
commented out, so a request with any (or no) signature and a valid payload
is published and answered with success.  On the generic API endpoint a
missing or mismatched `X-API-Key` does yield zero publishes, but the
`abort(401)` is caught by the handler's `except Exception` and converted to
the 500 envelope, so no 401-equivalent is returned. -/
theorem C2_auth_not_enforced :
    ∀ (sig : Option String) (d : WhatsAppData) (now : Nat)
      (pub : WebhookMessage → Except String String) (i : String)
      (key valid : String) (secretRes : Except String String)
      (data : Option ApiData) (ip : String),
    (d.sender.getD "" ≠ "" → d.textBody.getD "" ≠ "" →
       pub (whatsappMessage d now) = .ok i →
       whatsapp_webhook sig (some d) now pub =
         (successResponse i, [whatsappMessage d now])) ∧
    (api_webhook none secretRes data now ip pub = (internalErrorResponse, [])) ∧
    (key ≠ "" → key ≠ valid →
       api_webhook (some key) (.ok valid) data now ip pub = (internalErrorResponse, [])) := by
  intro sig d now pub i key valid secretRes data ip
  refine ⟨fun h1 h2 hpub => ?_, rfl, fun hk hkv => ?_⟩
  · simp only [whatsapp_webhook, whatsappTry]
    rw [if_neg (not_or.mpr ⟨h1, h2⟩), hpub]
    rfl
  · simp only [api_webhook, apiTry, Option.getD_some]
    rw [if_neg hk, if_pos hkv]
    rfl

/-- C2 witness: a WhatsApp request without a signature is published and
answered with success; API requests with a missing or wrong key get the 500
envelope and zero publishes. -/
theorem C2_witness :
    (wdEx.sender.getD "" ≠ "" ∧ wdEx.textBody.getD "" ≠ "" ∧
      pubOk (whatsappMessage wdEx 0) = .ok "mid-1" ∧
      ("wrong" : String) ≠ "" ∧ ("wrong" : String) ≠ "k1") ∧
    whatsapp_webhook none (some wdEx) 0 pubOk =
      (successResponse "mid-1", [whatsappMessage wdEx 0]) ∧
    api_webhook none (.ok "k1") (some adEx) 0 "ip" pubOk = (internalErrorResponse, []) ∧
    api_webhook (some "wrong") (.ok "k1") (some adEx) 0 "ip" pubOk =
      (internalErrorResponse, []) := by
  obtain ⟨h1, h2, h3⟩ :=
    C2_auth_not_enforced none wdEx 0 pubOk "mid-1" "wrong" "k1" (.ok "k1") (some adEx) "ip"
  exact ⟨⟨by decide, by decide, rfl, by decide, by decide⟩,
    h1 (by decide) (by decide) rfl, h2, h3 (by decide) (by decide)⟩

/-- C4: every valid accepted payload produces exactly one Queue publish of a
canonical message whose user id and text equal the caller-supplied fields
(`from`/`text.body` for WhatsApp, `user_id`/`message` for the generic API),
and the success response carries the message id assigned by the Queue. -/
theorem C4_valid_payload_single_publish :
    ∀ (sig : Option String) (d : WhatsAppData) (a : ApiData) (now : Nat)
      (pub : WebhookMessage → Except String String) (i j key ip : String),
    (d.sender.getD "" ≠ "" → d.textBody.getD "" ≠ "" →
       pub (whatsappMessage d now) = .ok i →
       whatsapp_webhook sig (some d) now pub =
         (successResponse i, [whatsappMessage d now]) ∧
       (whatsappMessage d now).user_id = d.sender.getD "" ∧
       (whatsappMessage d now).message = d.textBody.getD "") ∧
    (key ≠ "" → a.user_id.getD "" ≠ "" → a.message.getD "" ≠ "" →
       pub (apiMessage a now ip) = .ok j →
       api_webhook (some key) (.ok key) (some a) now ip pub =
         (successResponse j, [apiMessage a now ip]) ∧
       (apiMessage a now ip).user_id = a.user_id.getD "" ∧
       (apiMessage a now ip).message = a.message.getD "") := by
  intro sig d a now pub i j key ip
  constructor
  · intro h1 h2 hpub
    refine ⟨?_, rfl, rfl⟩
    simp only [whatsapp_webhook, whatsappTry]
    rw [if_neg (not_or.mpr ⟨h1, h2⟩), hpub]
    rfl
  · intro hk h1 h2 hpub
    refine ⟨?_, rfl, rfl⟩
    simp only [api_webhook, apiTry, Option.getD_some]
    rw [if_neg hk, if_neg (fun hne : key ≠ key => hne rfl),
      if_neg (not_or.mpr ⟨h1, h2⟩), hpub]
    rfl

/-- C4 witness: concrete valid requests on both channels evaluated through
the theorem. -/
theorem C4_witness :
    (wdEx.sender.getD "" ≠ "" ∧ wdEx.textBody.getD "" ≠ "" ∧
      ("k1" : String) ≠ "" ∧ adEx.user_id.getD "" ≠ "" ∧ adEx.message.getD "" ≠ "") ∧
    whatsapp_webhook none (some wdEx) 0 pubOk =
      (successResponse "mid-1", [whatsappMessage wdEx 0]) ∧
    (whatsappMessage wdEx 0).user_id = wdEx.sender.getD "" ∧
    api_webhook (some "k1") (.ok "k1") (some adEx) 0 "ip" pubOk =
      (successResponse "mid-1", [apiMessage adEx 0 "ip"]) ∧
    (apiMessage adEx 0 "ip").message = adEx.message.getD "" := by
  obtain ⟨h1, h2⟩ := C4_valid_payload_single_publish none wdEx adEx 0 pubOk "mid-1" "mid-1" "k1" "ip"
  obtain ⟨ha, hb, _⟩ := h1 (by decide) (by decide) rfl
  obtain ⟨hc, _, hd⟩ := h2 (by decide) (by decide) (by decide) rfl
  exact ⟨⟨by decide, by decide, by decide, by decide, by decide⟩, ha, hb, hc, hd⟩

end Listener

namespace Worker

/-- A well-formed decoded delivery payload, for concrete evaluation. -/
def mdEx : MessageData :=
  { source := some "api", user_id := some "u1", message := some "hello",
    timestamp := some 0, metadata := [] }

/-- The validated form of `mdEx`. -/
def pmEx : ProcessingMessage :=
  { source := "api", user_id := "u1", message := "hello", timestamp := 0,
    metadata := [] }

/-- A fixed raw OpenAI reply, for concrete evaluation. -/
def replyEx : OpenAIReply :=
  { content := "hi there", prompt_tokens := 1, completion_tokens := 2,
    total_tokens := 3 }

/-- An OpenAI oracle that always succeeds with `replyEx`. -/
def aiCallEx : List (String × String) → Except String OpenAIReply :=
  fun _ => .ok replyEx

/-- The empty Firestore state. -/
def fs0 : FsState := { conversations := [], summaries := [], nextId := 0 }

/-- The initial worker world: empty store, no responses published. -/
def w0 : WorkerState := { fs := fs0, responses := [] }

/-- The value `openaiAIResponse replyEx`, for concrete evaluation. -/
def aiRespEx : AIResponse := openaiAIResponse replyEx

/-- C3: a delivery is acked if and only if decode and the whole processing
attempt both succeed; a decode failure, or an error anywhere in processing,
reaches the except clause of `callback`, which nacks. -/
theorem C3_ack_iff_success :
    ∀ {α : Type} (decoded : Except String MessageData)
      (proc : MessageData → Except String α),
    (callback decoded proc = .ack ↔
       ∃ md r, decoded = .ok md ∧ proc md = .ok r) ∧
    (∀ e, decoded = .error e → callback decoded proc = .nack) ∧
    (∀ md e, decoded = .ok md → proc md = .error e →
       callback decoded proc = .nack) := by
  intro α decoded proc
  refine ⟨?_, ?_, ?_⟩
  · cases decoded with
    | error e => simp [callback]
    | ok md =>
      cases h : proc md with
      | error e => simp [callback, h]
      | ok r =>
        simp only [callback, h]
        exact ⟨fun _ => ⟨md, r, rfl, h⟩, fun _ => trivial⟩
  · intro e he
    subst he
    rfl
  · intro md e hd hp
    subst hd
    simp [callback, hp]

/-- C3 witness: concrete ack and nack decisions through the theorem. -/
theorem C3_witness :
    callback (α := Nat) (.ok mdEx) (fun _ => .ok 7) = .ack ∧
    callback (α := Nat) (.error "invalid json") (fun _ => .ok 7) = .nack ∧
    callback (α := Nat) (.ok mdEx) (fun _ => .error "ai failed") = .nack := by
  refine ⟨?_, ?_, ?_⟩
  · exact (C3_ack_iff_success (.ok mdEx) (fun _ => .ok 7)).1.mpr ⟨mdEx, 7, rfl, rfl⟩
  · exact (C3_ack_iff_success (.error "invalid json")
      (fun _ => (.ok 7 : Except String Nat))).2.1 "invalid json" rfl
  · exact (C3_ack_iff_success (.ok mdEx)
      (fun _ => (.error "ai failed" : Except String Nat))).2.2 mdEx "ai failed" rfl rfl

/-- C5: processing the same delivery payload twice appends two
ConversationTurn pairs (four turn documents) for the user and publishes two
ProcessingResults — the side-effect sequence is not idempotent. -/
theorem C5_redelivery_duplicates_effects
    (aiCall : List (String × String) → Except String OpenAIReply)
    (reply : OpenAIReply) (md : MessageData) (pm : ProcessingMessage)
    (f1 f2 : Except String (List TurnDoc)) (w : WorkerState)
    (n1 p1 n2 p2 : Nat)
    (hai : ∀ ms, aiCall ms = .ok reply)
    (hv : validateProcessingMessage md = .ok pm) :
    ∃ w1 r1 w2 r2,
      process_message aiCall f1 w md n1 p1 = .ok (w1, r1) ∧
      process_message aiCall f2 w1 md n2 p2 = .ok (w2, r2) ∧
      turnsOf w2.fs pm.user_id = turnsOf w.fs pm.user_id ++
        [userTurnDoc md n1 w.fs.nextId,
         aiTurnDoc pm.user_id (openaiAIResponse reply) p1 n1 (w.fs.nextId + 1),
         userTurnDoc md n2 (w.fs.nextId + 2),
         aiTurnDoc pm.user_id (openaiAIResponse reply) p2 n2 (w.fs.nextId + 3)] ∧
      w2.responses = w.responses ++ [r1, r2] ∧
      countOf w2.fs pm.user_id = countOf w.fs pm.user_id + 2 := by
  have huid : md.user_id.getD "" = pm.user_id := by
    rw [(validate_fields hv).2.1]
    rfl
  refine ⟨_, _, _, _,
    process_message_ok aiCall reply md pm f1 w n1 p1 hai hv,
    process_message_ok aiCall reply md pm f2 _ n2 p2 hai hv, ?_, ?_, ?_⟩
  · rw [← huid]
    simp only [turnsOf_save, nextId_save, List.append_assoc]
    rfl
  · simp [List.append_assoc]
  · rw [← huid]
    simp only [countOf_save, nextId_save]

/-- C5 witness: concrete double processing of `mdEx` from the empty world. -/
theorem C5_witness :
    (∀ ms, aiCallEx ms = .ok replyEx) ∧
    validateProcessingMessage mdEx = .ok pmEx ∧
    ∃ w1 r1 w2 r2,
      process_message aiCallEx (.ok []) w0 mdEx 0 0 = .ok (w1, r1) ∧
      process_message aiCallEx (.ok []) w1 mdEx 0 0 = .ok (w2, r2) ∧
      (turnsOf w2.fs pmEx.user_id).length =
        (turnsOf w0.fs pmEx.user_id).length + 4 ∧
      w2.responses = w0.responses ++ [r1, r2] := by
  refine ⟨fun _ => rfl, rfl, ?_⟩
  obtain ⟨w1, r1, w2, r2, h1, h2, h3, h4, _⟩ :=
    C5_redelivery_duplicates_effects aiCallEx replyEx mdEx pmEx
      (.ok []) (.ok []) w0 0 0 0 0 (fun _ => rfl) rfl
  refine ⟨w1, r1, w2, r2, h1, h2, ?_, h4⟩
  rw [h3]
  simp

/-- Double processing of the canonical example message, as one checkable
value: the two ProcessingResults when both attempts succeed. -/
def processTwice : Option (ProcessingResult × ProcessingResult) :=
  match process_message aiCallEx (.ok []) w0 mdEx 0 0 with
  | .error _ => none
  | .ok (w1, r1) =>
    match process_message aiCallEx (.ok []) w1 mdEx 0 0 with
    | .error _ => none
    | .ok (_, r2) => some (r1, r2)

/-- C6 counterexample: redelivering the same canonical message twice yields
ProcessingResults with different `message_id`s (the fresh Firestore
document ids 0 and 2); no field carries the Queue delivery id, so no shared
detectable key exists. -/
theorem C6_counterexample :
    processTwice.map (fun p => (p.1.message_id, p.2.message_id)) =
      some (0, 2) ∧ (0 : Nat) ≠ 2 := by
  exact ⟨rfl, by decide⟩

/-- C6 amended: the `message_id` of a ProcessingResult (and the
`firestore_ids` in its metadata) is the fresh Firestore document id of the
persisted user turn, allocated per processing attempt; redeliveries of the
same canonical message therefore carry different ids, and the Queue
delivery identifier is embedded nowhere. -/
theorem C6_result_ids_fresh_per_attempt
    (aiCall : List (String × String) → Except String OpenAIReply)
    (reply : OpenAIReply) (md : MessageData) (pm : ProcessingMessage)
    (f1 f2 : Except String (List TurnDoc)) (w : WorkerState)
    (n1 p1 n2 p2 : Nat)
    (hai : ∀ ms, aiCall ms = .ok reply)
    (hv : validateProcessingMessage md = .ok pm) :
    ∃ w1 r1 w2 r2,
      process_message aiCall f1 w md n1 p1 = .ok (w1, r1) ∧
      process_message aiCall f2 w1 md n2 p2 = .ok (w2, r2) ∧
      r1.message_id = w.fs.nextId ∧
      r1.metadata.firestore_message_id = w.fs.nextId ∧
      r2.message_id = w.fs.nextId + 2 ∧
      r1.message_id ≠ r2.message_id := by
  refine ⟨_, _, _, _,
    process_message_ok aiCall reply md pm f1 w n1 p1 hai hv,
    process_message_ok aiCall reply md pm f2 _ n2 p2 hai hv,
    rfl, rfl, rfl, ?_⟩
  show w.fs.nextId ≠ w.fs.nextId + 2
  omega

/-- C6 witness: the amended statement at the concrete example input. -/
theorem C6_witness :
    (∀ ms, aiCallEx ms = .ok replyEx) ∧
    validateProcessingMessage mdEx = .ok pmEx ∧
    ∃ w1 r1 w2 r2,
      process_message aiCallEx (.ok []) w0 mdEx 0 0 = .ok (w1, r1) ∧
      process_message aiCallEx (.ok []) w1 mdEx 0 0 = .ok (w2, r2) ∧
      r1.message_id ≠ r2.message_id := by
  refine ⟨fun _ => rfl, rfl, ?_⟩
  obtain ⟨w1, r1, w2, r2, h1, h2, _, _, _, hne⟩ :=
    C6_result_ids_fresh_per_attempt aiCallEx replyEx mdEx pmEx
      (.ok []) (.ok []) w0 0 0 0 0 (fun _ => rfl) rfl
  exact ⟨w1, r1, w2, r2, h1, h2, hne⟩

/-- C7: the assembled context is exactly the most recent window of stored
turns in chronological order with roles mapped to the provider vocabulary —
window 10 for the OpenAI variant (role strings user/assistant), window 5
for the Anthropic variant (Human/Assistant text lines) — and a user with
zero history yields an empty context without error. -/
theorem C7_context_window :
    ∀ (turns : List TurnDoc) (msg : String),
    (10 < turns.length →
       openai_messages (historyFromStore turns) msg =
         (lastN 10 turns).map openaiRoleMsg ++ [("user", msg)]) ∧
    (5 < turns.length →
       anthropic_prompt_text (historyFromStore turns) msg =
         renderedTurns (lastN 5 turns) ++ ("Human: " ++ msg ++ "\nAssistant:")) ∧
    (openai_messages (historyFromStore []) msg = [("user", msg)]) ∧
    (anthropic_prompt_text (historyFromStore []) msg =
       "Human: " ++ msg ++ "\nAssistant:") := by
  intro turns msg
  refine ⟨fun _ => ?_, fun _ => ?_, rfl, rfl⟩
  · rw [historyFromStore_eq]
    unfold openai_messages
    rw [lastN_lastN 10 20 (by omega)]
    rfl
  · rw [historyFromStore_eq]
    unfold anthropic_prompt_text
    rw [lastN_lastN 5 20 (by omega), buildConversationText_eq]
    rcases renderedTurns (lastN 5 turns) with ⟨xs⟩
    show String.mk ([] ++ xs) ++ _ = String.mk xs ++ _
    rw [List.nil_append]

/-- One stored turn for concrete evaluation of the context assembler. -/
def turnEx (i : Nat) (src : String) : TurnDoc :=
  { id := i, source := src, user_id := "u1", message := "m" ++ toString i,
    timestamp := i, model := none, usage := none, processing_time_ms := none,
    metadata := [] }

/-- Eleven stored turns alternating user and AI, chronological order. -/
def turnsEx : List TurnDoc :=
  (List.range 11).map (fun i => turnEx i (if i % 2 = 0 then "api" else "ai"))

/-- C7 witness: the window property evaluated on a stored history of 11
turns. -/
theorem C7_witness :
    (10 < turnsEx.length ∧ 5 < turnsEx.length) ∧
    openai_messages (historyFromStore turnsEx) "q" =
      (lastN 10 turnsEx).map openaiRoleMsg ++ [("user", "q")] ∧
    anthropic_prompt_text (historyFromStore turnsEx) "q" =
      renderedTurns (lastN 5 turnsEx) ++ ("Human: " ++ "q" ++ "\nAssistant:") := by
  obtain ⟨h1, h2, _, _⟩ := C7_context_window turnsEx "q"
  exact ⟨⟨by decide, by decide⟩, h1 (by decide), h2 (by decide)⟩

/-- C8 counterexample: one successful save from the empty store leaves
`message_count` at 1, not the claimed 2 — `firestore.Increment(1)` adds one
per exchange, not one per turn. -/
theorem C8_counterexample :
    countOf (save_message_to_firestore fs0 mdEx aiRespEx 5 100).1 "u1" = 1 ∧
    (1 : Nat) ≠ 2 := by
  exact ⟨rfl, by decide⟩

/-- C8 amended: every successful save appends exactly two turns for the
user (the user turn then the AI turn) and merge-increments the summary
`message_count` atomically by exactly 1 (one per exchange), never
overwriting it. -/
theorem C8_two_turns_and_single_increment :
    ∀ (s : FsState) (md : MessageData) (ai : AIResponse) (pt now : Nat),
    turnsOf (save_message_to_firestore s md ai pt now).1 (md.user_id.getD "") =
      turnsOf s (md.user_id.getD "") ++
        [userTurnDoc md now s.nextId,
         aiTurnDoc (md.user_id.getD "") ai pt now (s.nextId + 1)] ∧
    (userTurnDoc md now s.nextId).source = md.source.getD "" ∧
    (aiTurnDoc (md.user_id.getD "") ai pt now (s.nextId + 1)).source = "ai" ∧
    countOf (save_message_to_firestore s md ai pt now).1 (md.user_id.getD "") =
      countOf s (md.user_id.getD "") + 1 := by
  intro s md ai pt now
  exact ⟨turnsOf_save s md ai pt now, rfl, rfl, countOf_save s md ai pt now⟩

/-- C9: when the history read fails, `get_conversation_history` returns an
empty history, and the processing attempt proceeds exactly as it would with
an empty context — the failure does not propagate. -/
theorem C9_history_failure_degrades_to_empty :
    ∀ (e : String) (aiCall : List (String × String) → Except String OpenAIReply)
      (aiCallA : String → Except String AnthropicReply)
      (msg : String) (w : WorkerState) (md : MessageData) (now pt : Nat),
    get_conversation_history (.error e) = [] ∧
    process_with_openai (.error e) aiCall msg =
      process_with_openai (.ok []) aiCall msg ∧
    process_with_anthropic (.error e) aiCallA msg =
      process_with_anthropic (.ok []) aiCallA msg ∧
    process_message aiCall (.error e) w md now pt =
      process_message aiCall (.ok []) w md now pt := by
  intro e aiCall aiCallA msg w md now pt
  exact ⟨rfl, rfl, rfl, rfl⟩

end Worker

namespace Listener

/-- A Secret Manager access oracle that always fails. -/
def failingAccess : String → Except String String :=
  fun _ => .error "secret unavailable"

/-- A process environment that defines the uppercased secret name. -/
def envEx : String → Option String :=
  fun k => if k = "API-WEBHOOK-KEY" then some "env-key" else none

/-- C10 counterexample: when Secret Manager access fails and the uppercased
environment variable is available, `get_secret` still propagates the
failure, while the spec-described fallback resolver would return the
environment value. -/
theorem C10_counterexample :
    get_secret failingAccess "vocoeng-dev" "api-webhook-key" =
      .error "secret unavailable" ∧
    get_secret_with_env_fallback failingAccess envEx "vocoeng-dev" "api-webhook-key" =
      .ok "env-key" ∧
    (Except.error "secret unavailable" : Except String String) ≠ .ok "env-key" := by
  refine ⟨rfl, rfl, fun h => Except.noConfusion h⟩

/-- C10 amended: if resolution from the Secret Provider fails, `get_secret`
(in both services) logs and re-raises the failure; no environment-variable
fallback exists. -/
theorem C10_failure_propagates :
    ∀ (access : String → Except String String) (projectId name e : String),
    access (secretVersionName projectId name "latest") = .error e →
    get_secret access projectId name = .error e := by
  intro access projectId name e h
  unfold get_secret
  rw [h]

/-- C10 witness: the amended statement at a concrete failing access. -/
theorem C10_witness :
    failingAccess (secretVersionName "vocoeng-dev" "api-webhook-key" "latest") =
      .error "secret unavailable" ∧
    get_secret failingAccess "vocoeng-dev" "api-webhook-key" =
      .error "secret unavailable" :=
  ⟨rfl, C10_failure_propagates failingAccess "vocoeng-dev" "api-webhook-key"
    "secret unavailable" rfl⟩

end Listener

end VocoEng
